import Mathlib

/-!
Shallow embedding of the bike wishlist CLI (src/main.py, class ListTracker).

The database tables List_Tracker, Categories, Products and Wish_List are
modelled as plain lists inside a Store structure, and the application-level
operations (createList, deleteList, and the item-editor branches of viewList)
become functions on Store.  The database engine is an external collaborator
in this model and enforces nothing by itself: only the application's own
pre-insert / pre-update checks appear, which is exactly the view the
specification takes of the store.

User input strings are parameters of the operations.  Python str.strip is
modelled by pyStrip and str.lower by pyLower, written over the character
list of the string (all inputs of interest are ASCII).  Both the Python
int(...) conversion applied to a stripped quantity string and the SQL
integer cast that Postgres applies to a textual parameter compared with or
inserted into an INT column are modelled by pyInt (an optional single sign
followed by decimal digits).  An operation returns none when it raises an
uncaught database error - an integer cast failure inside a query, which the
program does not catch and which therefore terminates the process;
otherwise it returns some of the resulting store.

The printed outcome of createList / deleteList is part of the observable
behaviour several claims talk about, so those two operations also return a
result tag naming the message branch they took.
-/

/-- ASCII whitespace stripped by Python str.strip. -/
def pyWhitespace (c : Char) : Bool :=
  c == ' ' || c == '\t' || c == '\n' || c == '\r' || c.toNat == 11 || c.toNat == 12

/-- Remove leading whitespace characters. -/
def dropLeading : List Char → List Char
  | [] => []
  | c :: t => if pyWhitespace c then dropLeading t else c :: t

/-- Model of Python str.strip on ASCII input: remove leading and trailing
whitespace. -/
def pyStrip (s : String) : String :=
  ⟨(dropLeading ((dropLeading s.data).reverse)).reverse⟩

/-- Lowercase one ASCII character. -/
def charLower (c : Char) : Char :=
  if 65 ≤ c.toNat ∧ c.toNat ≤ 90 then Char.ofNat (c.toNat + 32) else c

/-- Model of Python str.lower on ASCII input. -/
def pyLower (s : String) : String :=
  ⟨s.data.map charLower⟩

/-- Is this character an ASCII decimal digit? -/
def isDigitB (c : Char) : Bool := 48 ≤ c.toNat && c.toNat ≤ 57

/-- Value of a nonempty all-digit character list. -/
def digitsVal (l : List Char) : Option Nat :=
  if !l.isEmpty && l.all isDigitB then
    some (l.foldl (fun a c => a * 10 + (c.toNat - 48)) 0)
  else none

/-- Model of Python int(...) on a stripped string, and equally of the SQL
integer cast that Postgres applies to a textual parameter bound against an
INT column: an optional single sign followed by one or more decimal
digits.  Anything else fails (Python: ValueError, which the quantity
prompts catch; SQL: a cast error, which nothing catches). -/
def pyInt (s : String) : Option Int :=
  match s.data with
  | [] => none
  | c :: t =>
    if c == '-' then (digitsVal t).map (fun m => -(m : Int))
    else if c == '+' then (digitsVal t).map (fun m => (m : Int))
    else (digitsVal (c :: t)).map (fun m => (m : Int))

/-- Bool test that the character list n occurs as a prefix of h. -/
def charsPrefix : List Char → List Char → Bool
  | [], _ => true
  | _ :: _, [] => false
  | c :: cs, d :: ds => c == d && charsPrefix cs ds

/-- Bool test that the character list n occurs contiguously inside h. -/
def charsInfix (n : List Char) : List Char → Bool
  | [] => charsPrefix n []
  | c :: t => charsPrefix n (c :: t) || charsInfix n t

/-- Case-insensitive substring test: models the SQL ILIKE match with pattern
percent-needle-percent used by the Add Item by Name branch (for needles
without pattern wildcard characters), and the Python membership test
needle.lower() in wl.lower() used by deleteList suggestions. -/
def containsCI (hay needle : String) : Bool :=
  charsInfix (pyLower needle).data (pyLower hay).data

/-- A row of the Categories table: category_id, category_name. -/
structure Category where
  categoryId : Int
  categoryName : String
deriving Repr, DecidableEq

/-- A row of the Products table: product_id, product_name, category_id. -/
structure Product where
  productId : Int
  productName : String
  categoryId : Int
deriving Repr, DecidableEq

/-- A row of the Wish_List table: wishlist_name, product_id, number, owned. -/
structure Item where
  wishlistName : String
  productId : Int
  number : Int
  owned : Bool
deriving Repr, DecidableEq

/-- The database state seen by the application: the four tables as lists. -/
structure Store where
  listTracker : List String
  categories : List Category
  products : List Product
  wishList : List Item
deriving Repr, DecidableEq

/-- The message branch taken by ListTracker.createList. -/
inductive CreateResult where
  | canceled
  | alreadyExists
  | created
deriving Repr, DecidableEq

/-- ListTracker.createList (src/main.py lines 87-106): cancel on the exit
sentinel, report if the name is already a List_Tracker row, otherwise
insert the row and commit. -/
def createList (st : Store) (wishlistName : String) : Store × CreateResult :=
  if pyLower (pyStrip wishlistName) = "exit" then (st, CreateResult.canceled)
  else if wishlistName ∈ st.listTracker then (st, CreateResult.alreadyExists)
  else ({ st with listTracker := st.listTracker ++ [wishlistName] }, CreateResult.created)

/-- The message branch taken by ListTracker.deleteList. -/
inductive DeleteResult where
  | canceled
  | suggested (names : List String)
  | notFound
  | deleted
deriving Repr, DecidableEq

/-- ListTracker.deleteList (src/main.py lines 108-136): cancel on the exit
sentinel; if the name is not a List_Tracker row, report the existing names
that contain it case-insensitively as suggestions (plain not-found when
there are none); otherwise delete the row and commit.  No Wish_List rows
are touched. -/
def deleteList (st : Store) (wishlistName : String) : Store × DeleteResult :=
  if pyLower (pyStrip wishlistName) = "exit" then (st, DeleteResult.canceled)
  else if wishlistName ∈ st.listTracker then
    ({ st with listTracker := st.listTracker.filter (fun wl => wl != wishlistName) },
      DeleteResult.deleted)
  else
    if (st.listTracker.filter (fun wl => containsCI wl wishlistName)).isEmpty then
      (st, DeleteResult.notFound)
    else (st, DeleteResult.suggested (st.listTracker.filter (fun wl => containsCI wl wishlistName)))

/-- Does this Wish_List row have the given key?  Models the WHERE clause
wishlist_name = w AND product_id = n used by every item-editor query. -/
def keyMatches (i : Item) (w : String) (n : Int) : Bool :=
  i.wishlistName == w && i.productId == n

/-- The duplicate / existence check SELECT product_id FROM Wish_List WHERE
wishlist_name = w AND product_id = n, reduced to its truth value. -/
def hasItem (st : Store) (w : String) (n : Int) : Bool :=
  st.wishList.any (fun i => keyMatches i w n)

/-- viewList menu choice 2, Add Item by ID (src/main.py lines 283-319):
exit check on the product id input; duplicate check (the id string is cast
to an integer inside that query - a cast failure is an uncaught database
error); exit check and int parse on the quantity input (parse failure is
caught and rejected); insert with owned = FALSE and commit.  No check that
the product id exists in the Products table is performed. -/
def addItemById (st : Store) (w : String) (pidInput qtyInput : String) : Option Store :=
  if pyLower (pyStrip pidInput) = "exit" then some st
  else
    match pyInt (pyStrip pidInput) with
    | none => none
    | some n =>
      if hasItem st w n then some st
      else if pyLower (pyStrip qtyInput) = "exit" then some st
      else
        match pyInt (pyStrip qtyInput) with
        | none => some st
        | some q =>
          some { st with wishList :=
            st.wishList ++ [{ wishlistName := w, productId := n, number := q, owned := false }] }

/-- The ILIKE query of the Add Item by Name branch: all Products rows whose
name contains the (stripped) input case-insensitively. -/
def matchesByName (st : Store) (pname : String) : List Product :=
  st.products.filter (fun p => containsCI p.productName pname)

/-- viewList menu choice 3, Add Item by Name (src/main.py lines 320-380):
exit check on the product name input; ILIKE substring query; zero matches
reports and returns; exactly one match takes its product id; several
matches read a disambiguating product id string at a prompt that performs
NO exit check (the raw string is cast to an integer inside the duplicate
check query, so a non-numeric answer there - including the word exit - is
an uncaught database error); then duplicate check, quantity prompt with
exit check and int parse, insert with owned = FALSE and commit, exactly as
in the Add Item by ID branch (lines 352-379 duplicate lines 291-319). -/
def addItemByName (st : Store) (w : String) (pnameInput disambigInput qtyInput : String) :
    Option Store :=
  if pyLower (pyStrip pnameInput) = "exit" then some st
  else
    match matchesByName st (pyStrip pnameInput) with
    | [] => some st
    | [p] =>
      if hasItem st w p.productId then some st
      else if pyLower (pyStrip qtyInput) = "exit" then some st
      else
        match pyInt (pyStrip qtyInput) with
        | none => some st
        | some q =>
          some { st with wishList :=
            st.wishList ++
              [{ wishlistName := w, productId := p.productId, number := q, owned := false }] }
    | _ :: _ :: _ =>
      match pyInt (pyStrip disambigInput) with
      | none => none
      | some n =>
        if hasItem st w n then some st
        else if pyLower (pyStrip qtyInput) = "exit" then some st
        else
          match pyInt (pyStrip qtyInput) with
          | none => some st
          | some q =>
            some { st with wishList :=
              st.wishList ++ [{ wishlistName := w, productId := n, number := q, owned := false }] }

/-- viewList menu choice 4, Remove Item (src/main.py lines 381-407): exit
check; existence check (report and return when the row is absent); DELETE
of the matching rows and commit. -/
def removeItem (st : Store) (w : String) (pidInput : String) : Option Store :=
  if pyLower (pyStrip pidInput) = "exit" then some st
  else
    match pyInt (pyStrip pidInput) with
    | none => none
    | some n =>
      if hasItem st w n then
        some { st with wishList := st.wishList.filter (fun i => !keyMatches i w n) }
      else some st

/-- viewList menu choice 5, Modify Quantity (src/main.py lines 409-447):
exit check; existence check (report and return when the row is absent);
exit check and int parse on the new quantity; UPDATE of the matching rows
and commit. -/
def modifyQuantity (st : Store) (w : String) (pidInput qtyInput : String) : Option Store :=
  if pyLower (pyStrip pidInput) = "exit" then some st
  else
    match pyInt (pyStrip pidInput) with
    | none => none
    | some n =>
      if hasItem st w n then
        if pyLower (pyStrip qtyInput) = "exit" then some st
        else
          match pyInt (pyStrip qtyInput) with
          | none => some st
          | some q =>
            some { st with wishList :=
              st.wishList.map (fun i => if keyMatches i w n then { i with number := q } else i) }
      else some st

/-- viewList menu choice 6, Modify Ownership Status (src/main.py lines
449-473): exit check on the product id; exit check on the stripped,
lowercased answer; the flag becomes true exactly when that answer equals
yes; then an unconditional UPDATE of the matching rows (there is no
existence check: the id string is first cast inside the UPDATE itself,
which simply matches zero rows when the id is absent from the wishlist). -/
def modifyOwnership (st : Store) (w : String) (pidInput ansInput : String) : Option Store :=
  if pyLower (pyStrip pidInput) = "exit" then some st
  else if pyLower (pyStrip ansInput) = "exit" then some st
  else
    match pyInt (pyStrip pidInput) with
    | none => none
    | some n =>
      some { st with wishList :=
        st.wishList.map (fun i =>
          if keyMatches i w n then { i with owned := pyLower (pyStrip ansInput) == "yes" }
          else i) }

/-- One iteration of the viewList item-editor menu, identified by the menu
choice and the strings the user would type at its prompts.  Choice 1
(View Products) and the listing of items only run SELECT queries, so they
are the identity on the store, as is an invalid menu choice. -/
inductive EditorOp where
  | viewProducts
  | addItemById (pidInput qtyInput : String)
  | addItemByName (pnameInput disambigInput qtyInput : String)
  | removeItem (pidInput : String)
  | modifyQuantity (pidInput qtyInput : String)
  | modifyOwnership (pidInput ansInput : String)
deriving Repr, DecidableEq

/-- Dispatch of one item-editor menu choice inside viewList. -/
def runEditorOp (st : Store) (w : String) : EditorOp → Option Store
  | EditorOp.viewProducts => some st
  | EditorOp.addItemById pid qty => addItemById st w pid qty
  | EditorOp.addItemByName pn d qty => addItemByName st w pn d qty
  | EditorOp.removeItem pid => removeItem st w pid
  | EditorOp.modifyQuantity pid qty => modifyQuantity st w pid qty
  | EditorOp.modifyOwnership pid ans => modifyOwnership st w pid ans

/-- A whole viewList editor session body: the menu loop runs its choices in
order until the user returns to the main menu; a database error aborts the
process. -/
def runEditorOps (st : Store) (w : String) : List EditorOp → Option Store
  | [] => some st
  | op :: ops =>
    match runEditorOp st w op with
    | none => none
    | some st2 => runEditorOps st2 w ops

/-- ListTracker.viewList (src/main.py lines 232-477): exit sentinel check
on the wishlist name, existence check against List_Tracker, then the item
editor menu loop. -/
def viewList (st : Store) (w : String) (ops : List EditorOp) : Option Store :=
  if pyLower (pyStrip w) = "exit" then some st
  else if w ∈ st.listTracker then runEditorOps st w ops
  else some st

/-- One main-menu operation of the application (src/main.py main_menu).
Viewing the list of wishlists is read-only and omitted. -/
inductive Op where
  | create (name : String)
  | delete (name : String)
  | view (name : String) (ops : List EditorOp)
deriving Repr, DecidableEq

/-- Dispatch of one main-menu operation. -/
def runOp (st : Store) : Op → Option Store
  | Op.create name => some (createList st name).1
  | Op.delete name => some (deleteList st name).1
  | Op.view name ops => viewList st name ops

/-- A whole interactive session: main-menu operations run in order; a
database error aborts the process. -/
def runOps (st : Store) : List Op → Option Store
  | [] => some st
  | op :: ops =>
    match runOp st op with
    | none => none
    | some st2 => runOps st2 ops

/-- Invariant: at most one Wish_List row per (wishlist name, product id)
pair. -/
def uniqueItems (st : Store) : Prop :=
  st.wishList.Pairwise (fun a b =>
    (a.wishlistName, a.productId) ≠ (b.wishlistName, b.productId))

/-- Invariant: every Wish_List row names an existing wishlist. -/
def itemsRefWishlists (st : Store) : Prop :=
  ∀ i ∈ st.wishList, i.wishlistName ∈ st.listTracker

/-- Invariant: every Wish_List row names an existing product. -/
def itemsRefProducts (st : Store) : Prop :=
  ∀ i ∈ st.wishList, ∃ p ∈ st.products, p.productId = i.productId

/-- Referential integrity of the Wish_List table, as stated in the spec. -/
def refIntegrity (st : Store) : Prop :=
  itemsRefWishlists st ∧ itemsRefProducts st

/-- Every stored quantity is positive. -/
def quantitiesPositive (st : Store) : Prop :=
  ∀ i ∈ st.wishList, 0 < i.number

instance (st : Store) : Decidable (uniqueItems st) := by
  unfold uniqueItems; infer_instance

instance (st : Store) : Decidable (itemsRefWishlists st) := by
  unfold itemsRefWishlists; infer_instance

instance (st : Store) : Decidable (itemsRefProducts st) := by
  unfold itemsRefProducts; infer_instance

instance (st : Store) : Decidable (refIntegrity st) := by
  unfold refIntegrity; infer_instance

instance (st : Store) : Decidable (quantitiesPositive st) := by
  unfold quantitiesPositive; infer_instance

/-- Is this main-menu operation a wishlist deletion? -/
def Op.isDelete : Op → Bool
  | Op.delete _ => true
  | _ => false

/-- How one item-editor step can change the store: the registry, categories
and products are untouched, and the Wish_List table either stays the same,
gains one fresh row for the session wishlist, loses the rows of one key, or
has the rows of one key updated in place (quantity or ownership). -/
def wishListEvolves (st : Store) (w : String) (st2 : Store) : Prop :=
  st2.listTracker = st.listTracker ∧ st2.categories = st.categories ∧
  st2.products = st.products ∧
  (st2.wishList = st.wishList
   ∨ (∃ n q, hasItem st w n = false ∧
        st2.wishList = st.wishList ++
          [{ wishlistName := w, productId := n, number := q, owned := false }])
   ∨ (∃ n, st2.wishList = st.wishList.filter (fun i => !keyMatches i w n))
   ∨ (∃ n q, st2.wishList =
        st.wishList.map (fun i => if keyMatches i w n then { i with number := q } else i))
   ∨ (∃ n b, st2.wishList =
        st.wishList.map (fun i => if keyMatches i w n then { i with owned := b } else i)))

/-- An empty wishlist named w in a store whose Products table is empty. -/
def noProductsStore : Store :=
  { listTracker := ["w"], categories := [], products := [], wishList := [] }

/-- An empty wishlist named w and a single product, id 5. -/
def oneBikeStore : Store :=
  { listTracker := ["w"], categories := [],
    products := [{ productId := 5, productName := "Trek Bike", categoryId := 2 }],
    wishList := [] }

/-- A store whose catalog holds two products both matching the name bike. -/
def twoBikesStore : Store :=
  { listTracker := ["w"], categories := [],
    products := [{ productId := 1, productName := "bike A", categoryId := 1 },
                 { productId := 2, productName := "bike B", categoryId := 1 }],
    wishList := [] }

/-- oneBikeStore with product 5 already on the wishlist, not owned. -/
def oneItemStore : Store :=
  { listTracker := ["w"], categories := [],
    products := [{ productId := 5, productName := "Trek Bike", categoryId := 2 }],
    wishList := [{ wishlistName := "w", productId := 5, number := 1, owned := false }] }

/-- oneBikeStore with product 5 already on the wishlist and owned. -/
def oneOwnedItemStore : Store :=
  { listTracker := ["w"], categories := [],
    products := [{ productId := 5, productName := "Trek Bike", categoryId := 2 }],
    wishList := [{ wishlistName := "w", productId := 5, number := 1, owned := true }] }

/-- A registry holding only the reserved word as a wishlist name. -/
def sentinelRegistryStore : Store :=
  { listTracker := ["exit"], categories := [], products := [], wishList := [] }

/-- A registry holding one name that contains the reserved word. -/
def exitRampStore : Store :=
  { listTracker := ["ExitRamp"], categories := [], products := [], wishList := [] }

/-! ### Helper lemmas about the editor operations -/

theorem keyMatches_iff (i : Item) (w : String) (n : Int) :
    keyMatches i w n = true ↔ i.wishlistName = w ∧ i.productId = n := by
  simp [keyMatches]

theorem hasItem_eq_false_iff (st : Store) (w : String) (n : Int) :
    hasItem st w n = false ↔ ∀ i ∈ st.wishList, ¬(i.wishlistName = w ∧ i.productId = n) := by
  simp [hasItem, List.any_eq_false, keyMatches_iff]

/-- Outcomes of the shared duplicate-check / quantity-prompt / insert tail
of both Add Item branches (src/main.py lines 291-319 and 352-379). -/
theorem insertTail_cases {st st2 : Store} {w : String} {n : Int} {qtyInput : String}
    (h : (if hasItem st w n then some st
          else if pyLower (pyStrip qtyInput) = "exit" then some st
          else
            match pyInt (pyStrip qtyInput) with
            | none => some st
            | some q =>
              some { st with wishList :=
                st.wishList ++
                  [{ wishlistName := w, productId := n, number := q, owned := false }] })
         = some st2) :
    st2 = st ∨ ∃ q, hasItem st w n = false ∧
      st2 = { st with wishList :=
        st.wishList ++ [{ wishlistName := w, productId := n, number := q, owned := false }] } := by
  split at h
  · simp only [Option.some.injEq] at h
    exact Or.inl h.symm
  · rename_i hdup
    split at h
    · simp only [Option.some.injEq] at h
      exact Or.inl h.symm
    · split at h
      · simp only [Option.some.injEq] at h
        exact Or.inl h.symm
      · rename_i q _
        simp only [Option.some.injEq] at h
        exact Or.inr ⟨q, by simpa using hdup, h.symm⟩

theorem runEditorOp_evolves {st st2 : Store} {w : String} {op : EditorOp}
    (h : runEditorOp st w op = some st2) : wishListEvolves st w st2 := by
  cases op with
  | viewProducts =>
    simp only [runEditorOp, Option.some.injEq] at h
    subst h
    exact ⟨rfl, rfl, rfl, Or.inl rfl⟩
  | addItemById pid qty =>
    simp only [runEditorOp, addItemById] at h
    split at h
    · simp only [Option.some.injEq] at h
      subst h
      exact ⟨rfl, rfl, rfl, Or.inl rfl⟩
    · split at h
      · exact Option.noConfusion h
      · rename_i n _
        rcases insertTail_cases h with heq | ⟨q, hdup, heq⟩
        · subst heq; exact ⟨rfl, rfl, rfl, Or.inl rfl⟩
        · subst heq
          exact ⟨rfl, rfl, rfl, Or.inr (Or.inl ⟨n, q, hdup, rfl⟩)⟩
  | addItemByName pn d qty =>
    simp only [runEditorOp, addItemByName] at h
    split at h
    · simp only [Option.some.injEq] at h
      subst h
      exact ⟨rfl, rfl, rfl, Or.inl rfl⟩
    · split at h
      · simp only [Option.some.injEq] at h
        subst h
        exact ⟨rfl, rfl, rfl, Or.inl rfl⟩
      · rename_i p _
        rcases insertTail_cases h with heq | ⟨q, hdup, heq⟩
        · subst heq; exact ⟨rfl, rfl, rfl, Or.inl rfl⟩
        · subst heq
          exact ⟨rfl, rfl, rfl, Or.inr (Or.inl ⟨p.productId, q, hdup, rfl⟩)⟩
      · split at h
        · exact Option.noConfusion h
        · rename_i n _
          rcases insertTail_cases h with heq | ⟨q, hdup, heq⟩
          · subst heq; exact ⟨rfl, rfl, rfl, Or.inl rfl⟩
          · subst heq
            exact ⟨rfl, rfl, rfl, Or.inr (Or.inl ⟨n, q, hdup, rfl⟩)⟩
  | removeItem pid =>
    simp only [runEditorOp, removeItem] at h
    split at h
    · simp only [Option.some.injEq] at h
      subst h
      exact ⟨rfl, rfl, rfl, Or.inl rfl⟩
    · split at h
      · exact Option.noConfusion h
      · rename_i n _
        split at h
        · simp only [Option.some.injEq] at h
          subst h
          exact ⟨rfl, rfl, rfl, Or.inr (Or.inr (Or.inl ⟨n, rfl⟩))⟩
        · simp only [Option.some.injEq] at h
          subst h
          exact ⟨rfl, rfl, rfl, Or.inl rfl⟩
  | modifyQuantity pid qty =>
    simp only [runEditorOp, modifyQuantity] at h
    split at h
    · simp only [Option.some.injEq] at h
      subst h
      exact ⟨rfl, rfl, rfl, Or.inl rfl⟩
    · split at h
      · exact Option.noConfusion h
      · rename_i n _
        split at h
        · split at h
          · simp only [Option.some.injEq] at h
            subst h
            exact ⟨rfl, rfl, rfl, Or.inl rfl⟩
          · split at h
            · simp only [Option.some.injEq] at h
              subst h
              exact ⟨rfl, rfl, rfl, Or.inl rfl⟩
            · rename_i q _
              simp only [Option.some.injEq] at h
              subst h
              exact ⟨rfl, rfl, rfl, Or.inr (Or.inr (Or.inr (Or.inl ⟨n, q, rfl⟩)))⟩
        · simp only [Option.some.injEq] at h
          subst h
          exact ⟨rfl, rfl, rfl, Or.inl rfl⟩
  | modifyOwnership pid ans =>
    simp only [runEditorOp, modifyOwnership] at h
    split at h
    · simp only [Option.some.injEq] at h
      subst h
      exact ⟨rfl, rfl, rfl, Or.inl rfl⟩
    · split at h
      · simp only [Option.some.injEq] at h
        subst h
        exact ⟨rfl, rfl, rfl, Or.inl rfl⟩
      · split at h
        · exact Option.noConfusion h
        · rename_i n _
          simp only [Option.some.injEq] at h
          subst h
          exact ⟨rfl, rfl, rfl,
            Or.inr (Or.inr (Or.inr (Or.inr ⟨n, pyLower (pyStrip ans) == "yes", rfl⟩)))⟩

/-- Mapping a key-preserving update over the item rows keeps the
pairwise-distinct-keys property. -/
theorem pairwise_key_map {l : List Item} {f : Item → Item}
    (hf : ∀ i, (f i).wishlistName = i.wishlistName ∧ (f i).productId = i.productId)
    (hu : l.Pairwise (fun a b =>
      (a.wishlistName, a.productId) ≠ (b.wishlistName, b.productId))) :
    (l.map f).Pairwise (fun a b =>
      (a.wishlistName, a.productId) ≠ (b.wishlistName, b.productId)) := by
  rw [List.pairwise_map]
  refine hu.imp ?_
  intro a b hab
  rw [(hf a).1, (hf a).2, (hf b).1, (hf b).2]
  exact hab

theorem evolves_uniqueItems {st st2 : Store} {w : String}
    (he : wishListEvolves st w st2) (hu : uniqueItems st) : uniqueItems st2 := by
  obtain ⟨-, -, -, hcase⟩ := he
  unfold uniqueItems at hu ⊢
  rcases hcase with hsame | ⟨n, q, hno, heq⟩ | ⟨n, heq⟩ | ⟨n, q, heq⟩ | ⟨n, b, heq⟩
  · rw [hsame]; exact hu
  · rw [heq, List.pairwise_append]
    refine ⟨hu, List.pairwise_singleton _ _, ?_⟩
    intro a ha b hb
    simp only [List.mem_singleton] at hb
    subst hb
    have hne := (hasItem_eq_false_iff st w n).mp hno a ha
    simp only [ne_eq, Prod.mk.injEq, not_and]
    intro h1 h2
    exact hne ⟨h1, h2⟩
  · rw [heq]
    exact List.Pairwise.sublist (List.filter_sublist _) hu
  · rw [heq]
    exact pairwise_key_map (fun i => by split <;> exact ⟨rfl, rfl⟩) hu
  · rw [heq]
    exact pairwise_key_map (fun i => by split <;> exact ⟨rfl, rfl⟩) hu

theorem evolves_refWishlists {st st2 : Store} {w : String}
    (he : wishListEvolves st w st2) (hw : w ∈ st.listTracker)
    (hr : itemsRefWishlists st) : itemsRefWishlists st2 := by
  obtain ⟨ht, -, -, hcase⟩ := he
  unfold itemsRefWishlists at hr ⊢
  intro i hi
  rw [ht]
  rcases hcase with hsame | ⟨n, q, -, heq⟩ | ⟨n, heq⟩ | ⟨n, q, heq⟩ | ⟨n, b, heq⟩
  · rw [hsame] at hi; exact hr i hi
  · rw [heq] at hi
    rcases List.mem_append.mp hi with hmem | hmem
    · exact hr i hmem
    · simp only [List.mem_singleton] at hmem
      subst hmem
      exact hw
  · rw [heq] at hi
    exact hr i (List.mem_of_mem_filter hi)
  · rw [heq] at hi
    obtain ⟨j, hj, rfl⟩ := List.mem_map.mp hi
    have hname : (if keyMatches j w n then { j with number := q } else j).wishlistName
        = j.wishlistName := by split <;> rfl
    rw [hname]
    exact hr j hj
  · rw [heq] at hi
    obtain ⟨j, hj, rfl⟩ := List.mem_map.mp hi
    have hname : (if keyMatches j w n then { j with owned := b } else j).wishlistName
        = j.wishlistName := by split <;> rfl
    rw [hname]
    exact hr j hj

theorem runEditorOps_uniqueItems {w : String} :
    ∀ {ops : List EditorOp} {st st2 : Store},
      runEditorOps st w ops = some st2 → uniqueItems st → uniqueItems st2
  | [], st, st2, h, hu => by
    simp only [runEditorOps, Option.some.injEq] at h
    subst h
    exact hu
  | op :: ops, st, st2, h, hu => by
    simp only [runEditorOps] at h
    split at h
    · exact Option.noConfusion h
    · rename_i stm heq
      exact runEditorOps_uniqueItems h (evolves_uniqueItems (runEditorOp_evolves heq) hu)

theorem runEditorOps_refWishlists {w : String} :
    ∀ {ops : List EditorOp} {st st2 : Store},
      runEditorOps st w ops = some st2 → w ∈ st.listTracker →
      itemsRefWishlists st → itemsRefWishlists st2
  | [], st, st2, h, _, hr => by
    simp only [runEditorOps, Option.some.injEq] at h
    subst h
    exact hr
  | op :: ops, st, st2, h, hw, hr => by
    simp only [runEditorOps] at h
    split at h
    · exact Option.noConfusion h
    · rename_i stm heq
      have he := runEditorOp_evolves heq
      exact runEditorOps_refWishlists h (he.1 ▸ hw) (evolves_refWishlists he hw hr)

/-- createList never changes the other three tables, and can only append
the new name to the registry. -/
theorem createList_effect (st : Store) (name : String) :
    (createList st name).1.categories = st.categories ∧
    (createList st name).1.products = st.products ∧
    (createList st name).1.wishList = st.wishList ∧
    ((createList st name).1.listTracker = st.listTracker ∨
     (createList st name).1.listTracker = st.listTracker ++ [name]) := by
  unfold createList
  split
  · exact ⟨rfl, rfl, rfl, Or.inl rfl⟩
  · split
    · exact ⟨rfl, rfl, rfl, Or.inl rfl⟩
    · exact ⟨rfl, rfl, rfl, Or.inr rfl⟩

/-- deleteList never changes the other three tables, and can only filter
the registry. -/
theorem deleteList_effect (st : Store) (name : String) :
    (deleteList st name).1.categories = st.categories ∧
    (deleteList st name).1.products = st.products ∧
    (deleteList st name).1.wishList = st.wishList ∧
    ((deleteList st name).1.listTracker = st.listTracker ∨
     (deleteList st name).1.listTracker = st.listTracker.filter (fun wl => wl != name)) := by
  unfold deleteList
  split
  · exact ⟨rfl, rfl, rfl, Or.inl rfl⟩
  · split
    · exact ⟨rfl, rfl, rfl, Or.inr rfl⟩
    · split
      · exact ⟨rfl, rfl, rfl, Or.inl rfl⟩
      · exact ⟨rfl, rfl, rfl, Or.inl rfl⟩

theorem viewList_uniqueItems {st st2 : Store} {w : String} {ops : List EditorOp}
    (h : viewList st w ops = some st2) (hu : uniqueItems st) : uniqueItems st2 := by
  unfold viewList at h
  split at h
  · simp only [Option.some.injEq] at h; subst h; exact hu
  · split at h
    · exact runEditorOps_uniqueItems h hu
    · simp only [Option.some.injEq] at h; subst h; exact hu

theorem viewList_refWishlists {st st2 : Store} {w : String} {ops : List EditorOp}
    (h : viewList st w ops = some st2) (hr : itemsRefWishlists st) :
    itemsRefWishlists st2 := by
  unfold viewList at h
  split at h
  · simp only [Option.some.injEq] at h; subst h; exact hr
  · split at h
    · rename_i hw
      exact runEditorOps_refWishlists h hw hr
    · simp only [Option.some.injEq] at h; subst h; exact hr

theorem runOps_uniqueItems :
    ∀ {ops : List Op} {st st2 : Store},
      runOps st ops = some st2 → uniqueItems st → uniqueItems st2
  | [], st, st2, h, hu => by
    simp only [runOps, Option.some.injEq] at h
    subst h
    exact hu
  | op :: ops, st, st2, h, hu => by
    simp only [runOps] at h
    split at h
    · exact Option.noConfusion h
    · rename_i stm heq
      have hum : uniqueItems stm := by
        cases op with
        | create name =>
          simp only [runOp, Option.some.injEq] at heq
          subst heq
          unfold uniqueItems at hu ⊢
          rw [(createList_effect st name).2.2.1]
          exact hu
        | delete name =>
          simp only [runOp, Option.some.injEq] at heq
          subst heq
          unfold uniqueItems at hu ⊢
          rw [(deleteList_effect st name).2.2.1]
          exact hu
        | view name eops =>
          exact viewList_uniqueItems heq hu
      exact runOps_uniqueItems h hum

theorem runOps_refWishlists_noDelete :
    ∀ {ops : List Op} {st st2 : Store},
      (∀ op ∈ ops, op.isDelete = false) →
      runOps st ops = some st2 → itemsRefWishlists st → itemsRefWishlists st2
  | [], st, st2, _, h, hr => by
    simp only [runOps, Option.some.injEq] at h
    subst h
    exact hr
  | op :: ops, st, st2, hnd, h, hr => by
    simp only [runOps] at h
    split at h
    · exact Option.noConfusion h
    · rename_i stm heq
      have hrm : itemsRefWishlists stm := by
        cases op with
        | create name =>
          simp only [runOp, Option.some.injEq] at heq
          subst heq
          intro i hi
          rw [(createList_effect st name).2.2.1] at hi
          rcases (createList_effect st name).2.2.2 with hsame | happ
          · rw [hsame]; exact hr i hi
          · rw [happ]; exact List.mem_append_left _ (hr i hi)
        | delete name =>
          have := hnd _ (List.mem_cons_self _ _)
          simp [Op.isDelete] at this
        | view name eops =>
          exact viewList_refWishlists heq hr
      exact runOps_refWishlists_noDelete
        (fun o ho => hnd o (List.mem_cons_of_mem _ ho)) h hrm

/-! ### C1 -/

/-- C1 counterexample: the store with one wishlist w and an empty Products
table satisfies the referential-integrity invariant, yet a single Add Item
by ID with product id 5 inserts a Wish_List row for a product that does not
exist.  The application performs no product-existence check before the
insert, so the invariant is not enforced by pre-insert checks. -/
theorem addItemById_breaks_refIntegrity :
    refIntegrity noProductsStore ∧
    runOps noProductsStore [Op.view "w" [EditorOp.addItemById "5" "1"]] =
      some { noProductsStore with
        wishList := [{ wishlistName := "w", productId := 5, number := 1, owned := false }] } ∧
    ¬ refIntegrity { noProductsStore with
        wishList := [{ wishlistName := "w", productId := 5, number := 1, owned := false }] } :=
  ⟨by decide, by decide, by decide⟩

/-- C1 (amended): in any run that performs no wishlist deletion, every
Wish_List row goes on referencing an existing wishlist, because viewList
verifies the wishlist exists before its editor can insert and the editor
operations never touch the registry.  (The product half of the spec
invariant is not enforced by the application - see the counterexample -
and deleteList removes no item rows, so a deletion can strand items.) -/
theorem items_reference_existing_wishlist
    (st st2 : Store) (ops : List Op)
    (hnd : ∀ op ∈ ops, op.isDelete = false)
    (hr : itemsRefWishlists st)
    (h : runOps st ops = some st2) : itemsRefWishlists st2 :=
  runOps_refWishlists_noDelete hnd h hr

theorem items_reference_existing_wishlist_witness :
    itemsRefWishlists { oneBikeStore with
      wishList := [{ wishlistName := "w", productId := 5, number := 2, owned := false }] } :=
  items_reference_existing_wishlist oneBikeStore
    { oneBikeStore with
      wishList := [{ wishlistName := "w", productId := 5, number := 2, owned := false }] }
    [Op.view "w" [EditorOp.addItemById "5" "2"]]
    (by decide) (by decide) (by decide)

/-! ### C2 -/

/-- C2: a second add of a product id already on the wishlist is rejected by
the duplicate check before any insert, in the Add Item by ID branch and in
the Add Item by Name branch alike, and consequently every run of the
application preserves at-most-one-row-per-(wishlist, product) once it
holds. -/
theorem duplicate_add_rejected_uniqueItems
    (st st2 st3 : Store) (ops : List Op)
    (w pidInput qtyInput pnameInput disambigInput : String) (n : Int) (p : Product)
    (hu : uniqueItems st) (h : runOps st ops = some st2)
    (hx : ¬ pyLower (pyStrip pidInput) = "exit")
    (hpn : pyInt (pyStrip pidInput) = some n)
    (hdup : hasItem st3 w n = true)
    (hnx : ¬ pyLower (pyStrip pnameInput) = "exit")
    (hm : matchesByName st3 (pyStrip pnameInput) = [p])
    (hdup2 : hasItem st3 w p.productId = true) :
    uniqueItems st2 ∧
    addItemById st3 w pidInput qtyInput = some st3 ∧
    addItemByName st3 w pnameInput disambigInput qtyInput = some st3 := by
  refine ⟨runOps_uniqueItems h hu, ?_, ?_⟩
  · simp [addItemById, hx, hpn, hdup]
  · simp [addItemByName, hnx, hm, hdup2]

theorem duplicate_add_rejected_uniqueItems_witness :
    uniqueItems { oneBikeStore with
      wishList := [{ wishlistName := "w", productId := 5, number := 2, owned := false }] } ∧
    addItemById oneItemStore "w" "5" "9" = some oneItemStore ∧
    addItemByName oneItemStore "w" "Trek" "d" "9" = some oneItemStore :=
  duplicate_add_rejected_uniqueItems oneBikeStore
    { oneBikeStore with
      wishList := [{ wishlistName := "w", productId := 5, number := 2, owned := false }] }
    oneItemStore
    [Op.view "w" [EditorOp.addItemById "5" "2", EditorOp.addItemById "5" "3"]]
    "w" "5" "9" "Trek" "d" 5 { productId := 5, productName := "Trek Bike", categoryId := 2 }
    (by decide) (by decide) (by decide) (by decide) (by decide) (by decide) (by decide)
    (by decide)

/-! ### C3 -/

/-- C3 counterexample: when Add Item by Name finds several matches, the
disambiguation prompt performs no exit check.  The answer exit is passed on
as a product id into the duplicate-check query, where its integer cast
fails - an uncaught database error that terminates the program, not a
cancellation returning to the menu with the store unchanged. -/
theorem exit_at_disambiguation_is_db_error :
    addItemByName twoBikesStore "w" "bike" "exit" "1" = none ∧
    addItemByName twoBikesStore "w" "bike" "exit" "1" ≠ some twoBikesStore :=
  ⟨by decide, by decide⟩

/-- C3 (amended): at every item-editor prompt that advertises the reserved
keyword - the product id, quantity, product name and ownership-answer
prompts - entering a string that strips and lowercases to exit aborts just
that operation and leaves the store unchanged.  The Add Item by Name
disambiguation prompt is the one exception: it performs no exit check (see
the counterexample). -/
theorem exit_cancels_advertised_prompts
    (st : Store) (w pidInput pnameInput disambigInput qtyInput ansInput s : String)
    (hs : pyLower (pyStrip s) = "exit")
    (hpid : pyLower (pyStrip pidInput) = "exit" ∨ ∃ n, pyInt (pyStrip pidInput) = some n)
    (hdis : 1 < (matchesByName st (pyStrip pnameInput)).length →
      ∃ n, pyInt (pyStrip disambigInput) = some n) :
    addItemById st w s qtyInput = some st ∧
    addItemById st w pidInput s = some st ∧
    addItemByName st w s disambigInput qtyInput = some st ∧
    addItemByName st w pnameInput disambigInput s = some st ∧
    removeItem st w s = some st ∧
    modifyQuantity st w s qtyInput = some st ∧
    modifyQuantity st w pidInput s = some st ∧
    modifyOwnership st w s ansInput = some st ∧
    modifyOwnership st w pidInput s = some st := by
  refine ⟨?_, ?_, ?_, ?_, ?_, ?_, ?_, ?_, ?_⟩
  · simp [addItemById, hs]
  · rcases hpid with hx | ⟨n, hn⟩
    · simp [addItemById, hx]
    · simp only [addItemById, hn, hs]
      split
      · rfl
      · split <;> simp
  · simp [addItemByName, hs]
  · by_cases hpx : pyLower (pyStrip pnameInput) = "exit"
    · simp [addItemByName, hpx]
    · simp only [addItemByName, if_neg hpx]
      cases hm : matchesByName st (pyStrip pnameInput) with
      | nil => rfl
      | cons p tail =>
        cases tail with
        | nil =>
          simp only [hs]
          split
          · rfl
          · simp
        | cons p2 rest =>
          obtain ⟨n, hn⟩ := hdis (by rw [hm]; simp)
          simp only [hn, hs]
          split
          · rfl
          · simp
  · simp [removeItem, hs]
  · simp [modifyQuantity, hs]
  · rcases hpid with hx | ⟨n, hn⟩
    · simp [modifyQuantity, hx]
    · simp only [modifyQuantity, hn, hs]
      split
      · rfl
      · split
        · simp
        · rfl
  · simp [modifyOwnership, hs]
  · by_cases hx : pyLower (pyStrip pidInput) = "exit"
    · simp [modifyOwnership, hx]
    · simp [modifyOwnership, hx, hs]

theorem exit_cancels_advertised_prompts_witness :
    addItemById twoBikesStore "w" " EXIT " "3" = some twoBikesStore ∧
    addItemById twoBikesStore "w" "5" " EXIT " = some twoBikesStore ∧
    addItemByName twoBikesStore "w" " EXIT " "1" "3" = some twoBikesStore ∧
    addItemByName twoBikesStore "w" "bike" "1" " EXIT " = some twoBikesStore ∧
    removeItem twoBikesStore "w" " EXIT " = some twoBikesStore ∧
    modifyQuantity twoBikesStore "w" " EXIT " "3" = some twoBikesStore ∧
    modifyQuantity twoBikesStore "w" "5" " EXIT " = some twoBikesStore ∧
    modifyOwnership twoBikesStore "w" " EXIT " "yes" = some twoBikesStore ∧
    modifyOwnership twoBikesStore "w" "5" " EXIT " = some twoBikesStore :=
  exit_cancels_advertised_prompts twoBikesStore "w" "5" "bike" "1" "3" "yes" " EXIT "
    (by decide) (Or.inr ⟨5, by decide⟩) (fun _ => ⟨1, by decide⟩)

/-! ### C4 -/

/-- C4 counterexample: the quantity prompt only rejects non-numeric input.
Entering 0 parses and is stored, so a run of the application reaches a
Wish_List row whose quantity is not positive. -/
theorem zero_quantity_accepted :
    quantitiesPositive oneBikeStore ∧
    runOps oneBikeStore [Op.view "w" [EditorOp.addItemById "5" "0"]] =
      some { oneBikeStore with
        wishList := [{ wishlistName := "w", productId := 5, number := 0, owned := false }] } ∧
    ¬ quantitiesPositive { oneBikeStore with
        wishList := [{ wishlistName := "w", productId := 5, number := 0, owned := false }] } :=
  ⟨by decide, by decide, by decide⟩

/-- C4 (amended): once set, a stored quantity is exactly the integer parsed
from the user's input: a non-numeric quantity is rejected by Add Item by ID
and by Modify Quantity with the store unchanged, while any string that
parses - zero and negative values included - has its value stored as
given. -/
theorem quantity_is_parsed_input
    (st : Store) (w pidInput qtyInput : String) (n : Int)
    (hx : ¬ pyLower (pyStrip pidInput) = "exit")
    (hpn : pyInt (pyStrip pidInput) = some n)
    (hqx : ¬ pyLower (pyStrip qtyInput) = "exit") :
    (pyInt (pyStrip qtyInput) = none →
      addItemById st w pidInput qtyInput = some st ∧
      modifyQuantity st w pidInput qtyInput = some st) ∧
    (∀ q, pyInt (pyStrip qtyInput) = some q →
      (hasItem st w n = false →
        addItemById st w pidInput qtyInput =
          some { st with wishList :=
            st.wishList ++
              [{ wishlistName := w, productId := n, number := q, owned := false }] }) ∧
      (hasItem st w n = true →
        modifyQuantity st w pidInput qtyInput =
          some { st with wishList :=
            st.wishList.map (fun i =>
              if keyMatches i w n then { i with number := q } else i) })) := by
  constructor
  · intro hqn
    constructor
    · simp [addItemById, hx, hpn, hqx, hqn]
    · simp [modifyQuantity, hx, hpn, hqx, hqn]
  · intro q hq
    constructor
    · intro hno
      simp [addItemById, hx, hpn, hqx, hq, hno]
    · intro hyes
      simp [modifyQuantity, hx, hpn, hqx, hq, hyes]

theorem quantity_is_parsed_input_witness :
    addItemById oneBikeStore "w" "5" "-2" =
      some { oneBikeStore with
        wishList := [{ wishlistName := "w", productId := 5, number := -2, owned := false }] } :=
  ((quantity_is_parsed_input oneBikeStore "w" "5" "-2" 5
      (by decide) (by decide) (by decide)).2 (-2) (by decide)).1 (by decide)

/-! ### C5 -/

/-- C5: once its name search runs (the input is not the cancel word),
Add Item by Name with zero case-insensitive substring matches leaves the
store unchanged, and with exactly one match it produces exactly the store
Add Item by ID produces when given a string denoting the matched product's
id together with the same quantity input. -/
theorem addByName_zero_or_one_match
    (st : Store) (w pnameInput disambigInput qtyInput pidInput : String) (p : Product)
    (hx : ¬ pyLower (pyStrip pidInput) = "exit")
    (hpid : pyInt (pyStrip pidInput) = some p.productId) :
    (matchesByName st (pyStrip pnameInput) = [] →
      addItemByName st w pnameInput disambigInput qtyInput = some st) ∧
    (¬ pyLower (pyStrip pnameInput) = "exit" →
      matchesByName st (pyStrip pnameInput) = [p] →
      addItemByName st w pnameInput disambigInput qtyInput =
        addItemById st w pidInput qtyInput) := by
  constructor
  · intro hm
    by_cases hpx : pyLower (pyStrip pnameInput) = "exit"
    · simp [addItemByName, hpx]
    · simp [addItemByName, hpx, hm]
  · intro hnx hm
    simp only [addItemByName, addItemById, if_neg hnx, if_neg hx, hm, hpid]

theorem addByName_zero_or_one_match_witness :
    (addItemByName twoBikesStore "w" "car" "d" "2" = some twoBikesStore) ∧
    (addItemByName twoBikesStore "w" "bike A" "d" "2" =
      addItemById twoBikesStore "w" "1" "2") :=
  ⟨(addByName_zero_or_one_match twoBikesStore "w" "car" "d" "2" "1"
      { productId := 1, productName := "bike A", categoryId := 1 }
      (by decide) (by decide)).1 (by decide),
   (addByName_zero_or_one_match twoBikesStore "w" "bike A" "d" "2" "1"
      { productId := 1, productName := "bike A", categoryId := 1 }
      (by decide) (by decide)).2 (by decide) (by decide)⟩

/-! ### C6 -/

theorem hasItem_false_keyMatches {st : Store} {w : String} {n : Int}
    (h : hasItem st w n = false) : ∀ i ∈ st.wishList, keyMatches i w n = false := by
  intro i hi
  have h2 : st.wishList.any (fun i => keyMatches i w n) = false := h
  have := List.any_eq_false.mp h2 i hi
  simpa using this

/-- Updating the rows of a key that no row has is the identity. -/
theorem map_if_no_match {l : List Item} {w : String} {n : Int} {f : Item → Item}
    (h : ∀ i ∈ l, keyMatches i w n = false) :
    l.map (fun i => if keyMatches i w n then f i else i) = l := by
  induction l with
  | nil => rfl
  | cons a t ih =>
    simp only [List.map_cons]
    rw [if_neg (by simp [h a (List.mem_cons_self a t)]),
      ih (fun i hi => h i (List.mem_cons_of_mem a hi))]

/-- C6: Modify Ownership runs its UPDATE without first checking that the
product id is on the wishlist; for an id with no row there the update
matches zero rows and every table of the store is left exactly as it was,
whereas Remove Item and Modify Quantity detect the missing row and return
before writing (and both Add branches check for the row before inserting -
see the C2 theorem). -/
theorem modifyOwnership_absent_id_no_effect
    (st : Store) (w pidInput ansInput qtyInput : String) (n : Int)
    (hx : ¬ pyLower (pyStrip pidInput) = "exit")
    (hax : ¬ pyLower (pyStrip ansInput) = "exit")
    (hpn : pyInt (pyStrip pidInput) = some n)
    (habs : hasItem st w n = false) :
    modifyOwnership st w pidInput ansInput = some st ∧
    removeItem st w pidInput = some st ∧
    modifyQuantity st w pidInput qtyInput = some st := by
  refine ⟨?_, ?_, ?_⟩
  · simp only [modifyOwnership, if_neg hx, if_neg hax, hpn]
    rw [map_if_no_match (hasItem_false_keyMatches habs)]
  · simp [removeItem, hx, hpn, habs]
  · simp [modifyQuantity, hx, hpn, habs]

theorem modifyOwnership_absent_id_no_effect_witness :
    modifyOwnership oneBikeStore "w" "5" "yes" = some oneBikeStore ∧
    removeItem oneBikeStore "w" "5" = some oneBikeStore ∧
    modifyQuantity oneBikeStore "w" "5" "3" = some oneBikeStore :=
  modifyOwnership_absent_id_no_effect oneBikeStore "w" "5" "yes" "3" 5
    (by decide) (by decide) (by decide) (by decide)

/-! ### C7 -/

/-- C7 counterexample: when the reserved word itself is a registry row,
createList on that name reports a cancellation, not that the wishlist
already exists - the sentinel check runs before the existence check.  The
store is still unchanged. -/
theorem createList_sentinel_shadows_exists :
    "exit" ∈ sentinelRegistryStore.listTracker ∧
    createList sentinelRegistryStore "exit" = (sentinelRegistryStore, CreateResult.canceled) ∧
    (createList sentinelRegistryStore "exit").2 ≠ CreateResult.alreadyExists :=
  ⟨by decide, by decide, by decide⟩

/-- C7 (amended): for every name already present in the registry,
createList leaves the whole store unchanged and performs no insert; it
reports that the wishlist already exists whenever the name is not the
reserved cancel word (for the reserved word it reports a cancellation
instead, still without touching the store). -/
theorem createList_existing_name_unchanged
    (st : Store) (name : String) (h : name ∈ st.listTracker) :
    (createList st name).1 = st ∧
    (¬ pyLower (pyStrip name) = "exit" →
      (createList st name).2 = CreateResult.alreadyExists) := by
  constructor
  · by_cases hx : pyLower (pyStrip name) = "exit"
    · unfold createList
      rw [if_pos hx]
    · unfold createList
      rw [if_neg hx, if_pos h]
  · intro hx
    unfold createList
    rw [if_neg hx, if_pos h]

theorem createList_existing_name_unchanged_witness :
    (createList noProductsStore "w").1 = noProductsStore ∧
    (createList noProductsStore "w").2 = CreateResult.alreadyExists :=
  ⟨(createList_existing_name_unchanged noProductsStore "w" (by decide)).1,
   (createList_existing_name_unchanged noProductsStore "w" (by decide)).2 (by decide)⟩

/-! ### C8 -/

/-- C8 counterexample: the name exit is absent from the registry and is a
case-insensitive substring of the existing name ExitRamp, so the claim
calls for a suggestion; the code instead cancels at the sentinel check
before any search, reporting a cancellation. -/
theorem deleteList_sentinel_shadows_suggestions :
    "exit" ∉ exitRampStore.listTracker ∧
    containsCI "ExitRamp" "exit" = true ∧
    deleteList exitRampStore "exit" = (exitRampStore, DeleteResult.canceled) :=
  ⟨by decide, by decide, by decide⟩

/-- C8 (amended): for every name that does not strip and lowercase to the
reserved cancel word: deleting a name absent from the registry changes
nothing and reports the existing names that contain it case-insensitively
as suggestions when there are any, plain not-found otherwise; deleting a
present name reports deletion, touches no other table, and - the registry
names being unique, as the primary-key column of List_Tracker is - removes
exactly that one row. -/
theorem deleteList_behavior
    (st : Store) (name : String)
    (hx : ¬ pyLower (pyStrip name) = "exit") :
    (name ∉ st.listTracker →
      (deleteList st name).1 = st ∧
      ((∃ wl ∈ st.listTracker, containsCI wl name = true) →
        (deleteList st name).2 =
          DeleteResult.suggested (st.listTracker.filter (fun wl => containsCI wl name))) ∧
      ((∀ wl ∈ st.listTracker, containsCI wl name = false) →
        (deleteList st name).2 = DeleteResult.notFound)) ∧
    (name ∈ st.listTracker →
      (deleteList st name).2 = DeleteResult.deleted ∧
      (deleteList st name).1.categories = st.categories ∧
      (deleteList st name).1.products = st.products ∧
      (deleteList st name).1.wishList = st.wishList ∧
      (st.listTracker.Nodup →
        (deleteList st name).1.listTracker = st.listTracker.erase name)) := by
  constructor
  · intro habs
    refine ⟨?_, ?_, ?_⟩
    · unfold deleteList
      rw [if_neg hx, if_neg habs]
      split
      · rfl
      · rfl
    · rintro ⟨wl, hwl, hc⟩
      have hmem : wl ∈ st.listTracker.filter (fun wl => containsCI wl name) :=
        List.mem_filter.mpr ⟨hwl, hc⟩
      have hne : ¬ (st.listTracker.filter (fun wl => containsCI wl name)).isEmpty = true := by
        intro hemp
        rw [List.isEmpty_iff] at hemp
        rw [hemp] at hmem
        exact absurd hmem (List.not_mem_nil wl)
      unfold deleteList
      rw [if_neg hx, if_neg habs, if_neg hne]
    · intro hnone
      have hfil : st.listTracker.filter (fun wl => containsCI wl name) = [] := by
        apply List.filter_eq_nil_iff.mpr
        intro wl hwl
        simp [hnone wl hwl]
      unfold deleteList
      rw [if_neg hx, if_neg habs, hfil]
      rfl
  · intro hmem
    refine ⟨?_, ?_, ?_, ?_, ?_⟩
    · unfold deleteList
      rw [if_neg hx, if_pos hmem]
    · unfold deleteList
      rw [if_neg hx, if_pos hmem]
    · unfold deleteList
      rw [if_neg hx, if_pos hmem]
    · unfold deleteList
      rw [if_neg hx, if_pos hmem]
    · intro hnodup
      unfold deleteList
      rw [if_neg hx, if_pos hmem, List.Nodup.erase_eq_filter hnodup]

theorem deleteList_behavior_witness :
    (deleteList exitRampStore "Ramp").1 = exitRampStore ∧
    (deleteList exitRampStore "Ramp").2 = DeleteResult.suggested ["ExitRamp"] ∧
    (deleteList noProductsStore "x").2 = DeleteResult.notFound ∧
    (deleteList noProductsStore "w").2 = DeleteResult.deleted ∧
    (deleteList noProductsStore "w").1.listTracker = ["w"].erase "w" := by
  have h1 := (deleteList_behavior exitRampStore "Ramp" (by decide)).1 (by decide)
  have h2 := (deleteList_behavior noProductsStore "x" (by decide)).1 (by decide)
  have h3 := (deleteList_behavior noProductsStore "w" (by decide)).2 (by decide)
  refine ⟨h1.1, ?_, h2.2.2 (by decide), h3.1, h3.2.2.2.2 (by decide)⟩
  rw [h1.2.1 ⟨"ExitRamp", by decide, by decide⟩]
  decide

/-! ### C9 -/

/-- Setting the flag of a key's rows to true and then to false restores a
list in which those rows were not owned. -/
theorem ownership_map_cancel {l : List Item} {w : String} {n : Int}
    (hfalse : ∀ i ∈ l, keyMatches i w n = true → i.owned = false) :
    (l.map (fun i => if keyMatches i w n then { i with owned := true } else i)).map
      (fun i => if keyMatches i w n then { i with owned := false } else i) = l := by
  rw [List.map_map]
  induction l with
  | nil => rfl
  | cons a t ih =>
    simp only [List.map_cons, Function.comp_apply, List.cons.injEq]
    constructor
    · by_cases hk : keyMatches a w n = true
      · rw [if_pos hk]
        have hk2 : keyMatches { a with owned := true } w n = true := hk
        rw [if_pos hk2]
        have hown := hfalse a (List.mem_cons_self a t) hk
        cases a
        simp_all
      · rw [if_neg hk, if_neg hk]
    · exact ih (fun i hi => hfalse i (List.mem_cons_of_mem a hi))

/-- C9: for a product whose rows in the wishlist are not owned, answering
yes to Modify Ownership and then running it again answering no restores
the store to exactly its original state: the flag round-trips to false and
quantities and all other rows are untouched. -/
theorem ownership_roundtrip
    (st : Store) (w pidInput : String) (n : Int)
    (hx : ¬ pyLower (pyStrip pidInput) = "exit")
    (hpn : pyInt (pyStrip pidInput) = some n)
    (_hex : hasItem st w n = true)
    (hfalse : ∀ i ∈ st.wishList, keyMatches i w n = true → i.owned = false) :
    (modifyOwnership st w pidInput "yes").bind
      (fun st1 => modifyOwnership st1 w pidInput "no") = some st := by
  have hy1 : ¬ pyLower (pyStrip "yes") = "exit" := by decide
  have hn1 : ¬ pyLower (pyStrip "no") = "exit" := by decide
  have hyt : (pyLower (pyStrip "yes") == "yes") = true := by decide
  have hnf : (pyLower (pyStrip "no") == "yes") = false := by decide
  simp only [modifyOwnership, if_neg hx, if_neg hy1, if_neg hn1, hpn, hyt, hnf,
    Option.some_bind, Option.some.injEq]
  rw [ownership_map_cancel hfalse]

theorem ownership_roundtrip_witness :
    (modifyOwnership oneItemStore "w" "5" "yes").bind
      (fun st1 => modifyOwnership st1 "w" "5" "no") = some oneItemStore :=
  ownership_roundtrip oneItemStore "w" "5" 5 (by decide) (by decide) (by decide) (by decide)

/-! ### C10 -/

/-- C10: Modify Ownership stores true in the ownership flag exactly when
the answer, stripped and lowercased, is the string yes; every other
non-exit answer - y, true, the empty string - stores false.  This holds
for every row of the modified key in the resulting store. -/
theorem ownership_flag_iff_yes
    (st st2 : Store) (w pidInput ansInput : String) (n : Int)
    (hx : ¬ pyLower (pyStrip pidInput) = "exit")
    (hax : ¬ pyLower (pyStrip ansInput) = "exit")
    (hpn : pyInt (pyStrip pidInput) = some n)
    (h2 : modifyOwnership st w pidInput ansInput = some st2) :
    ∀ i ∈ st2.wishList, keyMatches i w n = true →
      (i.owned = true ↔ pyLower (pyStrip ansInput) = "yes") := by
  simp only [modifyOwnership, if_neg hx, if_neg hax, hpn, Option.some.injEq] at h2
  subst h2
  intro i hi hk
  obtain ⟨j, hj, rfl⟩ := List.mem_map.mp hi
  by_cases hkj : keyMatches j w n = true
  · rw [if_pos hkj]
    exact beq_iff_eq
  · rw [if_neg hkj] at hk ⊢
    exact absurd hk hkj

theorem ownership_flag_iff_yes_witness :
    ({ wishlistName := "w", productId := 5, number := 1, owned := false } : Item).owned = true
      ↔ pyLower (pyStrip "y") = "yes" :=
  ownership_flag_iff_yes oneOwnedItemStore oneItemStore
    "w" "5" "y" 5 (by decide) (by decide) (by decide) (by decide)
    { wishlistName := "w", productId := 5, number := 1, owned := false }
    (by decide) (by decide)
